import Mathlib

/-!
Verification of the FraudApp single-transaction scoring pipeline.

The definitions below are a shallow embedding of the Streamlit fraud-detection
application (src/complete.py, src/streamlit-app-debug.py,
src/streamlit-app-optimized.py, src/streamlit-app-gdrive.py, src/app2.py).
The post-submission evaluation in `main` of src/complete.py is embedded as
`mainComplete`: validation (`validar_datos_entrada`), DataFrame construction
(`preparar_datos_para_modelo`), the per-column encoder loop, column selection
by `selected_features`, scaling, prediction and verdict display
(`mostrar_resultado`).  The debug variant's evaluation, whose
`preparar_datos_para_modelo` stamps `datetime.now()` into the row, is embedded
as `evalDebug` with the clock reading passed explicitly.

External fitted components are embedded by their documented contracts: an
encoder is an sklearn `LabelEncoder` (ordered class list; `transform` maps a
known label to its index and raises `ValueError` on an unseen one), the scaler
is a fitted `StandardScaler` (per-column `(x - mean) / scale`, raising on a
non-numeric cell or a feature-count mismatch), and the classifier exposes
`predict` and optionally `predict_proba`.
-/

namespace FraudApp

/-- A raw cell value of the single-row DataFrame: a number or a string.
Python exceptions do not carry values of other kinds in the claims below. -/
inductive Value where
  | num (q : ℚ)
  | str (s : String)
  deriving DecidableEq

/-- The Python exceptions that the evaluation path of the source can raise,
with the payload each actually carries:
* `typeErrorCmp` — `TypeError` from `datos['amount'] <= 0` when the amount is
  not a number; the message is the fixed interpreter text and names neither a
  column nor the offending value;
* `unseenLabel` — `ValueError` from `LabelEncoder.transform` on a label not in
  `classes_`; the message quotes the unseen label but no column name;
* `missingColumns` — `KeyError` from pandas column selection
  `df[selected_features]`, listing the requested columns not in the frame;
* `couldNotConvert` — `ValueError` from scaling a non-numeric cell, quoting
  the cell but no column name;
* `shapeMismatch` — `ValueError` from a feature-count mismatch at the scaler. -/
inductive PyError where
  | typeErrorCmp
  | unseenLabel (s : String)
  | missingColumns (cols : List String)
  | couldNotConvert (s : String)
  | shapeMismatch (got expected : Nat)
  deriving DecidableEq

/-- Whether the exception's payload carries a column name.  Of the errors the
evaluation path can raise, only the pandas `KeyError` lists column names. -/
def errNamesColumn : PyError → Bool
  | .missingColumns _ => true
  | _ => false

/-- One fitted categorical encoder (sklearn `LabelEncoder`): `classes` is the
ordered array of labels fixed at fit time; the first known label is
`classes.head`. -/
structure Encoder where
  classes : List String

/-- Position of a label in the encoder's class list, `none` if unseen. -/
def indexIn (s : String) : List String → Option Nat
  | [] => none
  | c :: rest => if c = s then some 0 else (indexIn s rest).map (· + 1)

/-- `LabelEncoder.transform` on one cell: a known label maps to its integer
code (its index in `classes`); an unseen label raises `ValueError`, as does a
non-string cell. -/
def Encoder.transform (enc : Encoder) (v : Value) : Except PyError Value :=
  match v with
  | .str s =>
    match indexIn s enc.classes with
    | some i => .ok (.num (i : ℚ))
    | none => .error (.unseenLabel s)
  | .num q => .error (.unseenLabel (toString q))

/-- A fitted `StandardScaler`: per-column means and scales. -/
structure StdScaler where
  mean : List ℚ
  scale : List ℚ

/-- Conversion of the selected row to a float array, as numpy performs inside
`scaler.transform`; a non-numeric cell raises `ValueError`. -/
def toFloats : List Value → Except PyError (List ℚ)
  | [] => .ok []
  | .num q :: rest =>
    match toFloats rest with
    | .ok xs => .ok (q :: xs)
    | .error e => .error e
  | .str s :: _ => .error (.couldNotConvert s)

/-- `scaler.transform` on the single selected row: convert to floats, check
the feature count against the fitted width, then apply `(x - mean) / scale`
per column. -/
def StdScaler.transform (sc : StdScaler) (vals : List Value) : Except PyError (List ℚ) :=
  match toFloats vals with
  | .error e => .error e
  | .ok xs =>
    if xs.length = sc.mean.length then
      .ok (List.zipWith (fun x ms => (x - ms.1) / ms.2) xs (sc.mean.zip sc.scale))
    else
      .error (.shapeMismatch xs.length sc.mean.length)

/-- The fitted binary classifier: `predict` on the scaled row (the code reads
`modelo.predict(X)[0]`), and, when the object has a `predict_proba`
attribute, the per-class probabilities (the code reads
`modelo.predict_proba(X)[0][1]`, the second component). -/
structure Clf where
  predict : List ℚ → Int
  predictProba : Option (List ℚ → ℚ × ℚ)

/-- The loaded artifact `modelo_components`, unpacked in `main` as
`modelo`, `scaler`, `encoders` and `selected_features`.  The encoders dict is
embedded as an association list in iteration (insertion) order. -/
structure ModelBundle where
  modelo : Clf
  scaler : StdScaler
  encoders : List (String × Encoder)
  selected_features : List String

/-- The pipeline's output, as rendered by `mostrar_resultado`:
`is_fraud` is the test `prediccion == 1`, `probability` the optional
`predict_proba` value. -/
structure Verdict where
  is_fraud : Bool
  probability : Option ℚ
  deriving DecidableEq

/-- The single-row DataFrame: column name to cell value, in column order. -/
abbrev Df := List (String × Value)

/-- `df[col] = value` on the single-row frame. -/
def setCol (df : Df) (c : String) (v : Value) : Df :=
  df.map (fun p => if p.1 = c then (c, v) else p)

/-- The mutable state of the encoder loop in `main`: the per-call DataFrame
copy (`transaccion_prep = nueva_transaccion.copy()`), alongside the shared
bundle the loop reads its encoders from. -/
structure LoopState where
  df : Df
  bundle : ModelBundle

/-- The encoder loop of `main`:
`for columna, encoder in encoders.items(): if columna in df.columns:
df[columna] = encoder.transform(df[columna])`.  The loop mutates only the
DataFrame held in the state; an unseen label aborts it with `ValueError`. -/
def encodeLoop : List (String × Encoder) → LoopState → Except PyError LoopState
  | [], st => .ok st
  | (col, enc) :: rest, st =>
    match st.df.lookup col with
    | none => encodeLoop rest st
    | some v =>
      match enc.transform v with
      | .error e => .error e
      | .ok w => encodeLoop rest { st with df := setCol st.df col w }

/-- The encoding phase as the pipeline consumes it: run the encoder loop on
the per-call DataFrame copy and keep the resulting frame. -/
def encodePhase (df : Df) (b : ModelBundle) : Except PyError Df :=
  Except.map LoopState.df (encodeLoop b.encoders { df := df, bundle := b })

/-- `transaccion_prep[selected_features]`: pandas column selection.  All
requested columns present: the frame is re-emitted with exactly those columns
in the requested order.  Any absent: `KeyError` listing the missing ones. -/
def selectColumns (df : Df) (fs : List String) : Except PyError Df :=
  match fs.filter (fun c => !((df.map Prod.fst).contains c)) with
  | [] => .ok (fs.map (fun c => (c, (df.lookup c).getD (Value.num 0))))
  | m => .error (.missingColumns m)

/-- The scoring tail of the `try:` block: scale the selected row, predict,
and read the optional probability — `modelo.predict(X)[0]` compared to 1 by
`mostrar_resultado`, and `modelo.predict_proba(X)[0][1]` when the attribute
exists, both on the same scaled row `X`. -/
def scoreRow (b : ModelBundle) (row : Df) : Except PyError Verdict :=
  match b.scaler.transform (row.map Prod.snd) with
  | .error e => .error e
  | .ok scaled =>
    .ok { is_fraud := b.modelo.predict scaled == 1
          , probability := Option.map (fun f => (f scaled).2) b.modelo.predictProba }

/-- `transaccion_prep = transaccion_prep[selected_features]` followed by the
scoring tail. -/
def afterEncode (b : ModelBundle) (df2 : Df) : Except PyError Verdict :=
  match selectColumns df2 b.selected_features with
  | .error e => .error e
  | .ok row => scoreRow b row

/-- The body of the `try:` block of `main` after the DataFrame is built:
encoder loop, column selection, scaling, prediction, optional probability,
and the verdict that `mostrar_resultado` renders. -/
def runPipelineDf (b : ModelBundle) (df : Df) : Except PyError Verdict :=
  match encodePhase df b with
  | .error e => .error e
  | .ok df2 => afterEncode b df2

/-- The form dictionary `datos` of src/complete.py
(`crear_campos_formulario`).  The amount is kept as a raw `Value` so that
inputs with a non-numeric amount can be examined; the timestamp field is a
raw `Value` (a datetime is not a number). -/
structure Datos where
  amount : Value
  category : String
  trans_num : String
  first : String
  last : String
  gender : String
  dob : String
  job : String
  street : String
  city : String
  state : String
  zip : String
  trans_date_trans_time : Value
  unix_time : Int
  city_pop : Int

/-- `preparar_datos_para_modelo` of src/complete.py: the fixed-column
single-row DataFrame, in the source's column order. -/
def makeDf (d : Datos) : Df :=
  [ ("Unnamed: 0", .num 0)
  , ("trans_date_trans_time", d.trans_date_trans_time)
  , ("category", .str d.category)
  , ("amt", d.amount)
  , ("first", .str d.first)
  , ("gender", .str d.gender)
  , ("zip", .str d.zip)
  , ("city_pop", .num (d.city_pop : ℚ))
  , ("dob", .str d.dob)
  , ("unix_time", .num (d.unix_time : ℚ))
  , ("merchant", .str "unknown")
  , ("last", .str d.last)
  , ("street", .str d.street)
  , ("city", .str d.city)
  , ("state", .str d.state)
  , ("job", .str d.job)
  , ("trans_num", .str d.trans_num) ]

/-- Python's `not s.strip()`: the string is empty or entirely whitespace. -/
def blank (s : String) : Bool :=
  s.data.all Char.isWhitespace

/-- The non-amount checks of `validar_datos_entrada` in src/complete.py, in
source order, each firing when the stripped field is empty. -/
def stringChecks (d : Datos) : List String :=
  (if blank d.first then ["El nombre es requerido"] else [])
  ++ (if blank d.last then ["El apellido es requerido"] else [])
  ++ (if blank d.zip then ["El código postal es requerido"] else [])
  ++ (if blank d.trans_num then ["El número de transacción es requerido"] else [])
  ++ (if blank d.street then ["La dirección es requerida"] else [])
  ++ (if blank d.city then ["La ciudad es requerida"] else [])
  ++ (if blank d.job then ["La ocupación es requerida"] else [])

/-- `validar_datos_entrada` of src/complete.py.  Its first statement is
`if datos['amount'] <= 0:`; when the amount is not a number that comparison
itself raises `TypeError`, so validation of such an input never returns an
error list at all. -/
def validar (d : Datos) : Except PyError (List String) :=
  match d.amount with
  | .num q => .ok ((if q ≤ 0 then ["El monto debe ser mayor que 0"] else []) ++ stringChecks d)
  | .str _ => .error .typeErrorCmp

/-- What one submission can end as, per the control flow of `main`:
* `uncaught` — an exception raised outside the `try:` block (validation runs
  before it);
* `invalid` — validation returned a non-empty error list, `main` returns
  before the pipeline;
* `handled` — an exception inside the `try:` block, caught by the broad
  `except Exception` and rendered as error text, no verdict;
* `verdict` — `mostrar_resultado` ran. -/
inductive Outcome where
  | uncaught (e : PyError)
  | invalid (errs : List String)
  | handled (e : PyError)
  | verdict (v : Verdict)
  deriving DecidableEq

/-- Whether the submission ended in a rendered verdict. -/
def isVerdict : Outcome → Bool
  | .verdict _ => true
  | _ => false

/-- The post-submission evaluation of src/complete.py `main`: validate,
return on errors, otherwise run the pipeline inside the `try:` block. -/
def mainComplete (b : ModelBundle) (d : Datos) : Outcome :=
  match validar d with
  | .error e => .uncaught e
  | .ok [] =>
    match runPipelineDf b (makeDf d) with
    | .error e => .handled e
    | .ok v => .verdict v
  | .ok (e :: es) => .invalid (e :: es)

/-- The process-wide state of `main`: the cached `modelo_components`. -/
structure ProcState where
  bundle : ModelBundle

/-- One submission as a transition on the process state: the evaluation reads
the bundle and returns the state it was given; nothing in `main` assigns to
`modelo_components` or its fields. -/
def evaluateSt (st : ProcState) (d : Datos) : Outcome × ProcState :=
  (mainComplete st.bundle d, st)

/-- The result of a whole run of `main`, including model loading:
`cargar_modelo` returns `None` on any download or unpickling failure and
`main` returns immediately, before the form or any pipeline stage. -/
inductive MainOutcome where
  | loadFailed
  | ran (o : Outcome)
  deriving DecidableEq

/-- `main` from the top: `modelo_components = cargar_modelo()` followed by
`if modelo_components is None: return`. -/
def mainFull : Option ModelBundle → Datos → MainOutcome
  | none, _ => .loadFailed
  | some b, d => .ran (mainComplete b d)

/-- The form dictionary of src/streamlit-app-debug.py
(`crear_campos_formulario` there). -/
structure DatosDebug where
  amount : Value
  merchant : String
  category : String
  state : String
  city : String
  zip : String
  lat : ℚ
  long : ℚ
  merch_lat : ℚ
  merch_long : ℚ

/-- `preparar_datos_para_modelo` of src/streamlit-app-debug.py: the fixed
single-row DataFrame.  That function calls `datetime.now()` itself for
`trans_date_trans_time` and `unix_time`, so the clock reading is an explicit
argument here. -/
def makeDfDebug (d : DatosDebug) (now : Int) : Df :=
  [ ("Unnamed: 0", .num 0)
  , ("trans_date_trans_time", .str (toString now))
  , ("amt", d.amount)
  , ("first", .str "unknown")
  , ("gender", .str "unknown")
  , ("city_pop", .num 0)
  , ("dob", .str "1970-01-01")
  , ("unix_time", .num (now : ℚ))
  , ("merchant", .str d.merchant)
  , ("category", .str d.category)
  , ("state", .str d.state)
  , ("city", .str d.city)
  , ("zip", .str d.zip)
  , ("lat", .num d.lat)
  , ("long", .num d.long)
  , ("merch_lat", .num d.merch_lat)
  , ("merch_long", .num d.merch_long) ]

/-- The non-amount checks of `validar_datos_entrada` in
src/streamlit-app-debug.py, in source order. -/
def stringChecksDebug (d : DatosDebug) : List String :=
  (if blank d.merchant then ["El nombre del comerciante es requerido"] else [])
  ++ (if blank d.city then ["La ciudad es requerida"] else [])
  ++ (if blank d.zip then ["El código postal es requerido"] else [])

/-- `validar_datos_entrada` of src/streamlit-app-debug.py. -/
def validarDebug (d : DatosDebug) : Except PyError (List String) :=
  match d.amount with
  | .num q => .ok ((if q ≤ 0 then ["El monto debe ser mayor que 0"] else []) ++ stringChecksDebug d)
  | .str _ => .error .typeErrorCmp

/-- The post-submission evaluation of src/streamlit-app-debug.py `main`, with
the clock reading taken during `preparar_datos_para_modelo` made explicit. -/
def evalDebug (b : ModelBundle) (d : DatosDebug) (now : Int) : Outcome :=
  match validarDebug d with
  | .error e => .uncaught e
  | .ok [] =>
    match runPipelineDf b (makeDfDebug d now) with
    | .error e => .handled e
    | .ok v => .verdict v
  | .ok (e :: es) => .invalid (e :: es)

/-! Concrete fixtures used by the counterexamples and witnesses below. -/

/-- A bundle whose evaluation of `okD` succeeds end to end: one category
encoder, two selected features, identity scaling, a threshold classifier with
probabilities. -/
def okB : ModelBundle :=
  { modelo :=
      { predict := fun r => if (100 : ℚ) ≤ r.headD 0 then 1 else 0
      , predictProba := some (fun _ => ((3 : ℚ) / 10, (7 : ℚ) / 10)) }
  , scaler := { mean := [0, 0], scale := [1, 1] }
  , encoders := [("category", { classes := ["entertainment", "grocery_pos"] })]
  , selected_features := ["amt", "category"] }

/-- A fully valid form submission for src/complete.py. -/
def okD : Datos :=
  { amount := .num 250
  , category := "grocery_pos"
  , trans_num := "t1"
  , first := "Ana"
  , last := "Diaz"
  , gender := "F"
  , dob := "1990-01-01"
  , job := "analyst"
  , street := "Main 1"
  , city := "NYC"
  , state := "NY"
  , zip := "10001"
  , trans_date_trans_time := .str "2024-01-01 00:00:00"
  , unix_time := 1704067200
  , city_pop := 0 }

/-- A bundle whose category encoder knows only `grocery_pos`. -/
def c1B : ModelBundle :=
  { modelo := okB.modelo
  , scaler := { mean := [0], scale := [1] }
  , encoders := [("category", { classes := ["grocery_pos"] })]
  , selected_features := ["amt"] }

/-- A valid submission whose category `zzz` is unknown to `c1B`'s encoder. -/
def c1D : Datos := { okD with category := "zzz" }

/-- A bundle whose selected features name a column absent from the prepared
DataFrame. -/
def c2B : ModelBundle :=
  { modelo := okB.modelo
  , scaler := { mean := [0], scale := [1] }
  , encoders := []
  , selected_features := ["ghost"] }

/-- A valid submission fed to `c2B`. -/
def c2D : Datos := okD

/-- A bundle that selects only the `unix_time` column, which the debug
variant's `preparar_datos_para_modelo` fills from `datetime.now()`: the
classifier flags any reading at or after instant 1. -/
def c3B : ModelBundle :=
  { modelo := { predict := fun r => if (1 : ℚ) ≤ r.headD 0 then 1 else 0, predictProba := none }
  , scaler := { mean := [0], scale := [1] }
  , encoders := []
  , selected_features := ["unix_time"] }

/-- A valid form submission for src/streamlit-app-debug.py. -/
def c3D : DatosDebug :=
  { amount := .num 5
  , merchant := "acme"
  , category := "grocery_pos"
  , state := "NY"
  , city := "NYC"
  , zip := "10001"
  , lat := 0
  , long := 0
  , merch_lat := 0
  , merch_long := 0 }

/-- A bundle selecting only the amount column. -/
def c4B : ModelBundle :=
  { modelo := okB.modelo
  , scaler := { mean := [0], scale := [1] }
  , encoders := []
  , selected_features := ["amt"] }

/-- A submission whose amount is the non-numeric text `abc`. -/
def c4D : Datos := { okD with amount := .str "abc" }

/-- Encoders for the encoder-loop frame fixture. -/
def c8Encs : List (String × Encoder) := [("category", { classes := ["grocery_pos"] })]

/-- Bundle for the encoder-loop frame fixture. -/
def c8B : ModelBundle :=
  { modelo := okB.modelo
  , scaler := { mean := [0], scale := [1] }
  , encoders := c8Encs
  , selected_features := ["amt"] }

/-- Loop state before the encoder loop: a one-column frame and the bundle. -/
def c8St : LoopState := { df := [("category", .str "grocery_pos")], bundle := c8B }

/-- Loop state after the encoder loop: the column was encoded, the bundle is
the same. -/
def c8Res : LoopState := { df := [("category", .num 0)], bundle := c8B }

/-- A bundle handed to the rejected zero-amount submission. -/
def c10B : ModelBundle := c8B

/-- A second, different bundle for the same rejected submission. -/
def c10Balt : ModelBundle := c2B

/-- A submission with amount 0, which the form's `number_input`
(`min_value=0.0`) admits. -/
def c10D : Datos := { okD with amount := .num 0 }

/-! Helper lemmas. -/

/-- A label not in the class list has no index. -/
lemma indexIn_none_of_not_mem (t : String) :
    ∀ (l : List String), t ∉ l → indexIn t l = none := by
  intro l
  induction l with
  | nil => intro _; rfl
  | cons c rest ih =>
    intro h
    rw [List.mem_cons, not_or] at h
    obtain ⟨h1, h2⟩ := h
    unfold indexIn
    rw [if_neg (fun hc => h1 hc.symm), ih h2]
    rfl

/-- The encoder loop never changes the bundle component of its state; it only
rewrites cells of the per-call DataFrame copy. -/
lemma encodeLoop_bundle :
    ∀ (encs : List (String × Encoder)) (st res : LoopState),
      encodeLoop encs st = .ok res → res.bundle = st.bundle := by
  intro encs
  induction encs with
  | nil =>
    intro st res h
    unfold encodeLoop at h
    injection h with h1
    rw [← h1]
  | cons p rest ih =>
    intro st res h
    obtain ⟨col, enc⟩ := p
    unfold encodeLoop at h
    split at h
    all_goals
      first
        | exact Except.noConfusion h
        | exact (ih _ res h).trans rfl
        | (split at h
           all_goals
             first
               | exact Except.noConfusion h
               | exact (ih _ res h).trans rfl)

/-- Successful pandas column selection returns exactly the requested columns,
in the requested order. -/
lemma selectColumns_ok_inv (df : Df) (fs : List String) (row : Df)
    (h : selectColumns df fs = .ok row) :
    row.map Prod.fst = fs ∧ row.length = fs.length := by
  unfold selectColumns at h
  split at h
  · have hrow : row = fs.map (fun c => (c, (df.lookup c).getD (Value.num 0))) :=
      (Except.ok.inj h).symm
    subst hrow
    constructor
    · rw [List.map_map]
      show List.map id fs = fs
      exact List.map_id fs
    · simp
  · exact Except.noConfusion h

/-- Inversion of a successful pipeline run: it went encoder loop, then column
selection, then scaling, and the verdict is the prediction test together with
the optional probability, both on the same scaled row. -/
lemma runPipelineDf_ok_inv (b : ModelBundle) (df : Df) (v : Verdict)
    (h : runPipelineDf b df = .ok v) :
    ∃ df2 row scaled,
      encodePhase df b = .ok df2 ∧
      selectColumns df2 b.selected_features = .ok row ∧
      StdScaler.transform b.scaler (row.map Prod.snd) = .ok scaled ∧
      v = { is_fraud := b.modelo.predict scaled == 1
            , probability := Option.map (fun f => (f scaled).2) b.modelo.predictProba } := by
  unfold runPipelineDf at h
  split at h
  · exact Except.noConfusion h
  next df2 h1 =>
    unfold afterEncode at h
    split at h
    · exact Except.noConfusion h
    next row h2 =>
      unfold scoreRow at h
      split at h
      · exact Except.noConfusion h
      next scaled h3 =>
        exact ⟨df2, row, scaled, h1, h2, h3, (Except.ok.inj h).symm⟩

/-- Inversion of an evaluation that rendered a verdict: validation returned no
errors and the pipeline succeeded on the prepared DataFrame. -/
lemma mainComplete_verdict_inv (b : ModelBundle) (d : Datos) (v : Verdict)
    (h : mainComplete b d = .verdict v) :
    validar d = .ok [] ∧ runPipelineDf b (makeDf d) = .ok v := by
  unfold mainComplete at h
  split at h
  · exact Outcome.noConfusion h
  next hval =>
    split at h
    · exact Outcome.noConfusion h
    next v2 h2 =>
      exact ⟨hval, (Outcome.verdict.inj h) ▸ h2⟩
  · exact Outcome.noConfusion h

/-! Claim theorems. -/

/-- C1, counterexample.  The claim says an unknown categorical value is
substituted with the encoder's first known label before transformation, never
raises, records exactly one `UnknownCategoryWarning`, and the evaluation
completes with a Verdict.  On the code, submitting a valid transaction whose
category `zzz` is unknown to the bundle's category encoder makes
`encoder.transform` raise `ValueError`; the broad handler catches it, no
Verdict is produced, and nothing records a warning or a substitution. -/
theorem c1_counterexample :
    mainComplete c1B c1D = .handled (PyError.unseenLabel "zzz") ∧
    isVerdict (mainComplete c1B c1D) = false := by
  constructor
  · with_unfolding_all rfl
  · with_unfolding_all rfl

/-- C1, amended.  For every bundle and every submission that passes
validation, if the encoder loop fails on an unseen label then the evaluation
ends as a handled exception carrying that label (and nothing else: no column
name, no warning record, no Verdict); and `transform` on any label outside an
encoder's class list always produces exactly that error. -/
theorem c1_unknown_category_amended (b : ModelBundle) (d : Datos) (s : String)
    (hval : validar d = .ok [])
    (henc : encodePhase (makeDf d) b = .error (.unseenLabel s)) :
    mainComplete b d = .handled (PyError.unseenLabel s) ∧
    ∀ (enc : Encoder) (t : String), t ∉ enc.classes →
      enc.transform (.str t) = .error (.unseenLabel t) := by
  constructor
  · have hrun : runPipelineDf b (makeDf d) = .error (.unseenLabel s) := by
      unfold runPipelineDf
      rw [henc]
    unfold mainComplete
    rw [hval, hrun]
  · intro enc t ht
    simp only [Encoder.transform]
    rw [indexIn_none_of_not_mem t enc.classes ht]

/-- C1, witness for the amended theorem at the concrete fixture. -/
theorem c1_unknown_category_amended_witness :
    mainComplete c1B c1D = .handled (PyError.unseenLabel "zzz") :=
  (c1_unknown_category_amended c1B c1D "zzz" rfl rfl).1

/-- C2, counterexample.  The claim says a selected feature missing from the
input is filled with a documented default and evaluation still produces a
Verdict.  On the code, a bundle selecting a column `ghost` that the prepared
DataFrame does not have makes pandas raise `KeyError`; the handler catches
it, no default is substituted and no Verdict is produced. -/
theorem c2_counterexample :
    mainComplete c2B c2D = .handled (PyError.missingColumns ["ghost"]) ∧
    isVerdict (mainComplete c2B c2D) = false := by
  constructor
  · with_unfolding_all rfl
  · with_unfolding_all rfl

/-- C2, amended.  For every bundle and submission that passes validation, if
after the encoder loop some selected features are absent from the DataFrame's
columns, the evaluation ends as a handled `KeyError` listing exactly the
absent features, with no default substituted and no Verdict. -/
theorem c2_missing_feature_amended (b : ModelBundle) (d : Datos) (df2 : Df)
    (hval : validar d = .ok [])
    (henc : encodePhase (makeDf d) b = .ok df2)
    (hmiss : b.selected_features.filter (fun c => !((df2.map Prod.fst).contains c)) ≠ []) :
    mainComplete b d =
      .handled (.missingColumns
        (b.selected_features.filter (fun c => !((df2.map Prod.fst).contains c)))) := by
  have hsel : selectColumns df2 b.selected_features =
      .error (.missingColumns
        (b.selected_features.filter (fun c => !((df2.map Prod.fst).contains c)))) := by
    unfold selectColumns
    cases hm : b.selected_features.filter (fun c => !((df2.map Prod.fst).contains c)) with
    | nil => exact absurd hm hmiss
    | cons a as => rfl
  have hrun : runPipelineDf b (makeDf d) =
      .error (.missingColumns
        (b.selected_features.filter (fun c => !((df2.map Prod.fst).contains c)))) := by
    have hstep : runPipelineDf b (makeDf d) = afterEncode b df2 := by
      unfold runPipelineDf
      rw [henc]
    rw [hstep]
    unfold afterEncode
    rw [hsel]
  unfold mainComplete
  rw [hval, hrun]

/-- C2, witness for the amended theorem at the concrete fixture. -/
theorem c2_missing_feature_amended_witness :
    mainComplete c2B c2D =
      .handled (.missingColumns
        (c2B.selected_features.filter (fun c => !(((makeDf c2D).map Prod.fst).contains c)))) :=
  c2_missing_feature_amended c2B c2D (makeDf c2D) rfl rfl (by decide)

/-- C3, counterexample.  The claim says two `evaluate` calls with identical
input and the same bundle yield identical Verdicts.  In the debug variant,
`preparar_datos_para_modelo` itself stamps `datetime.now()` into the row, so
with a bundle whose selected feature is `unix_time` the same form input
submitted at clock readings 0 and 1 yields two different Verdicts. -/
theorem c3_counterexample :
    evalDebug c3B c3D 0 = .verdict { is_fraud := false, probability := none } ∧
    evalDebug c3B c3D 1 = .verdict { is_fraud := true, probability := none } ∧
    evalDebug c3B c3D 0 ≠ evalDebug c3B c3D 1 := by
  have h0 : evalDebug c3B c3D 0 = .verdict { is_fraud := false, probability := none } := by
    with_unfolding_all rfl
  have h1 : evalDebug c3B c3D 1 = .verdict { is_fraud := true, probability := none } := by
    with_unfolding_all rfl
  refine ⟨h0, h1, ?_⟩
  rw [h0, h1]
  intro hc
  simp at hc

/-- C3, amended.  Two evaluations with identical input, the same bundle and
the same clock reading taken during data preparation yield identical
Verdicts: the evaluation is a deterministic function of bundle, input and
clock. -/
theorem c3_idempotence_amended (b : ModelBundle) (d : DatosDebug) (n1 n2 : Int)
    (h : n1 = n2) : evalDebug b d n1 = evalDebug b d n2 := by
  rw [h]

/-- C3, witness for the amended theorem at the concrete fixture. -/
theorem c3_idempotence_amended_witness : evalDebug c3B c3D 5 = evalDebug c3B c3D 5 :=
  c3_idempotence_amended c3B c3D 5 5 rfl

/-- C4, counterexample.  The claim says a non-numeric string in a numeric
field raises a `FeatureTypeError` naming the offending column and raw value.
On the code, amount `abc` makes `datos['amount'] <= 0` in
`validar_datos_entrada` raise a plain `TypeError` outside the `try:` block;
no Verdict is returned, but the error is not a `FeatureTypeError` and its
payload names no column (and no value). -/
theorem c4_counterexample :
    mainComplete c4B c4D = .uncaught PyError.typeErrorCmp ∧
    errNamesColumn PyError.typeErrorCmp = false ∧
    isVerdict (mainComplete c4B c4D) = false := by
  refine ⟨?_, rfl, ?_⟩
  · with_unfolding_all rfl
  · with_unfolding_all rfl

/-- C4, amended.  For every bundle and every input whose amount field holds a
string, the evaluation raises an uncaught generic `TypeError` from the
validation comparison and no Verdict is returned; the failure is never
silently recovered into a Verdict, but the error carries no column name. -/
theorem c4_string_amount_amended (b : ModelBundle) (d : Datos) (s : String)
    (h : d.amount = .str s) :
    mainComplete b d = .uncaught PyError.typeErrorCmp ∧
    isVerdict (mainComplete b d) = false := by
  have hval : validar d = .error .typeErrorCmp := by
    unfold validar
    rw [h]
  have hm : mainComplete b d = .uncaught PyError.typeErrorCmp := by
    unfold mainComplete
    rw [hval]
  refine ⟨hm, ?_⟩
  rw [hm]
  rfl

/-- C4, witness for the amended theorem at the concrete fixture. -/
theorem c4_string_amount_amended_witness :
    mainComplete c4B c4D = .uncaught PyError.typeErrorCmp ∧
    isVerdict (mainComplete c4B c4D) = false :=
  c4_string_amount_amended c4B c4D "abc" rfl

/-- C5.  On every evaluation that renders a Verdict, the row handed to the
scaler is the result of selecting `selected_features` from the encoded
DataFrame: its column names are exactly `selected_features` in that order,
its length equals `len(selected_features)`, and hence every raw field not
named there has been dropped. -/
theorem c5_row_shape (b : ModelBundle) (d : Datos) (v : Verdict)
    (h : mainComplete b d = .verdict v) :
    ∃ df2 row scaled,
      encodePhase (makeDf d) b = .ok df2 ∧
      selectColumns df2 b.selected_features = .ok row ∧
      StdScaler.transform b.scaler (row.map Prod.snd) = .ok scaled ∧
      row.map Prod.fst = b.selected_features ∧
      row.length = b.selected_features.length := by
  obtain ⟨hval, hrun⟩ := mainComplete_verdict_inv b d v h
  obtain ⟨df2, row, scaled, h1, h2, h3, hv⟩ := runPipelineDf_ok_inv b (makeDf d) v hrun
  obtain ⟨hfst, hlen⟩ := selectColumns_ok_inv df2 b.selected_features row h2
  exact ⟨df2, row, scaled, h1, h2, h3, hfst, hlen⟩

/-- C5, witness at the concrete successful fixture. -/
theorem c5_row_shape_witness :
    ∃ df2 row scaled,
      encodePhase (makeDf okD) okB = .ok df2 ∧
      selectColumns df2 okB.selected_features = .ok row ∧
      StdScaler.transform okB.scaler (row.map Prod.snd) = .ok scaled ∧
      row.map Prod.fst = okB.selected_features ∧
      row.length = okB.selected_features.length :=
  c5_row_shape okB okD { is_fraud := true, probability := some (7 / 10) }
    (by with_unfolding_all rfl)

/-- C6.  On every evaluation that renders a Verdict, `is_fraud` is true
exactly when the classifier's predicted label on the scaled row equals 1
(`if prediccion == 1:` in `mostrar_resultado`). -/
theorem c6_fraud_iff (b : ModelBundle) (d : Datos) (v : Verdict)
    (h : mainComplete b d = .verdict v) :
    ∃ df2 row scaled,
      encodePhase (makeDf d) b = .ok df2 ∧
      selectColumns df2 b.selected_features = .ok row ∧
      StdScaler.transform b.scaler (row.map Prod.snd) = .ok scaled ∧
      (v.is_fraud = true ↔ b.modelo.predict scaled = 1) := by
  obtain ⟨hval, hrun⟩ := mainComplete_verdict_inv b d v h
  obtain ⟨df2, row, scaled, h1, h2, h3, hv⟩ := runPipelineDf_ok_inv b (makeDf d) v hrun
  subst hv
  exact ⟨df2, row, scaled, h1, h2, h3, by simp⟩

/-- C6, witness at the concrete successful fixture. -/
theorem c6_fraud_iff_witness :
    ∃ df2 row scaled,
      encodePhase (makeDf okD) okB = .ok df2 ∧
      selectColumns df2 okB.selected_features = .ok row ∧
      StdScaler.transform okB.scaler (row.map Prod.snd) = .ok scaled ∧
      (Verdict.is_fraud { is_fraud := true, probability := some (7 / 10) } = true ↔
        okB.modelo.predict scaled = 1) :=
  c6_fraud_iff okB okD { is_fraud := true, probability := some (7 / 10) }
    (by with_unfolding_all rfl)

/-- C7.  On every evaluation that renders a Verdict, the reported probability
is `predict_proba` of the same scaled row that produced the predicted label
(`[0][1]`, the positive-class entry), and when the classifier exposes no
`predict_proba` the Verdict's probability is `None`. -/
theorem c7_probability (b : ModelBundle) (d : Datos) (v : Verdict)
    (h : mainComplete b d = .verdict v) :
    ∃ df2 row scaled,
      encodePhase (makeDf d) b = .ok df2 ∧
      selectColumns df2 b.selected_features = .ok row ∧
      StdScaler.transform b.scaler (row.map Prod.snd) = .ok scaled ∧
      v.is_fraud = (b.modelo.predict scaled == 1) ∧
      v.probability = Option.map (fun f => (f scaled).2) b.modelo.predictProba ∧
      (b.modelo.predictProba = none → v.probability = none) := by
  obtain ⟨hval, hrun⟩ := mainComplete_verdict_inv b d v h
  obtain ⟨df2, row, scaled, h1, h2, h3, hv⟩ := runPipelineDf_ok_inv b (makeDf d) v hrun
  subst hv
  refine ⟨df2, row, scaled, h1, h2, h3, rfl, rfl, ?_⟩
  intro hnone
  simp only [hnone]
  rfl

/-- C7, witness at the concrete successful fixture. -/
theorem c7_probability_witness :
    ∃ df2 row scaled,
      encodePhase (makeDf okD) okB = .ok df2 ∧
      selectColumns df2 okB.selected_features = .ok row ∧
      StdScaler.transform okB.scaler (row.map Prod.snd) = .ok scaled ∧
      Verdict.is_fraud { is_fraud := true, probability := some (7 / 10) } =
        (okB.modelo.predict scaled == 1) ∧
      Verdict.probability { is_fraud := true, probability := some (7 / 10) } =
        Option.map (fun f => (f scaled).2) okB.modelo.predictProba ∧
      (okB.modelo.predictProba = none →
        Verdict.probability { is_fraud := true, probability := some (7 / 10) } = none) :=
  c7_probability okB okD { is_fraud := true, probability := some (7 / 10) }
    (by with_unfolding_all rfl)

/-- C8.  The encoder loop — the only statement of the evaluation that
syntactically mutates anything — rewrites only cells of the per-call
DataFrame copy: whenever it finishes, the bundle component of its state is
unchanged; and a whole submission, seen as a transition on the process state
holding `modelo_components`, returns that state unchanged. -/
theorem c8_bundle_unchanged (encs : List (String × Encoder)) (st res : LoopState)
    (h : encodeLoop encs st = .ok res) :
    res.bundle = st.bundle ∧
    ∀ (d : Datos), (evaluateSt { bundle := st.bundle } d).2 = { bundle := st.bundle } :=
  ⟨encodeLoop_bundle encs st res h, fun _ => rfl⟩

/-- C8, witness at the concrete fixture. -/
theorem c8_bundle_unchanged_witness : c8Res.bundle = c8St.bundle :=
  (c8_bundle_unchanged c8Encs c8St c8Res rfl).1

/-- C9.  When `cargar_modelo` fails it returns `None`, and `main` returns
before the form and before any pipeline stage: the whole run ends as
`loadFailed` for every input, and only a successfully loaded bundle ever
reaches the evaluation. -/
theorem c9_load_failure_blocks :
    ∀ (d : Datos), mainFull none d = MainOutcome.loadFailed ∧
      ∀ (b : ModelBundle), mainFull (some b) d = .ran (mainComplete b d) :=
  fun _ => ⟨rfl, fun _ => rfl⟩

/-- C10.  A submission whose amount is 0 or negative — admitted by the form,
whose `number_input` has `min_value=0.0` — is rejected by
`validar_datos_entrada` before any pipeline stage: the outcome is the
validation error list headed by the amount message, and it is the same
whatever bundle is loaded, so no encoding, scaling or prediction ran. -/
theorem c10_nonpositive_amount_rejected (b b2 : ModelBundle) (d : Datos) (q : ℚ)
    (h1 : d.amount = .num q) (h2 : q ≤ 0) :
    mainComplete b d = .invalid ("El monto debe ser mayor que 0" :: stringChecks d) ∧
    mainComplete b d = mainComplete b2 d := by
  have hif : validar d =
      .ok ((if q ≤ 0 then ["El monto debe ser mayor que 0"] else []) ++ stringChecks d) := by
    unfold validar
    rw [h1]
  have hval : validar d = .ok ("El monto debe ser mayor que 0" :: stringChecks d) := by
    rw [hif, if_pos h2]
    rfl
  have hm : mainComplete b d = .invalid ("El monto debe ser mayor que 0" :: stringChecks d) := by
    unfold mainComplete
    rw [hval]
  have hm2 : mainComplete b2 d = .invalid ("El monto debe ser mayor que 0" :: stringChecks d) := by
    unfold mainComplete
    rw [hval]
  exact ⟨hm, hm.trans hm2.symm⟩

/-- C10, witness at the concrete fixture: amount 0 with two different
bundles. -/
theorem c10_nonpositive_amount_rejected_witness :
    mainComplete c10B c10D = .invalid ("El monto debe ser mayor que 0" :: stringChecks c10D) ∧
    mainComplete c10B c10D = mainComplete c10Balt c10D :=
  c10_nonpositive_amount_rejected c10B c10Balt c10D 0 rfl le_rfl

end FraudApp
